import Mathlib

/-!
Verification of the cryptobacktest pricing/aggregation engine.

The Python source (src/cryptobacktest/cryptobacktest.py and vol.py) is
shallowly embedded below.  Real-number arithmetic of the source is modelled
by `ℝ`; the Python runtime errors that can escape an arithmetic expression
(`ZeroDivisionError` from `x / 0`, `ValueError` from `math.sqrt` / `math.log`
on a bad domain or from the explicit `raise ValueError` guards) are modelled
by an `Except PyErr` monad, with `pydiv`, `pysqrt`, `pylog` mirroring the
partiality of `/`, `math.sqrt`, `math.log`.  `scipy.stats.norm.cdf` is
modelled by the mathematical standard normal CDF `normCdf`.
-/

open MeasureTheory

/-- Standard normal probability density, `normal_pdf` of the source:
`exp (-d^2 / 2) / sqrt (2 * pi)`. -/
noncomputable def normPdf (d : ℝ) : ℝ :=
  Real.exp (-d ^ 2 / 2) / Real.sqrt (2 * Real.pi)

/-- Standard normal cumulative distribution, the mathematical meaning of
`scipy.stats.norm.cdf` used by `Option.norm_dist`. -/
noncomputable def normCdf (d : ℝ) : ℝ :=
  ∫ t in Set.Iic d, normPdf t

/-! ## Embedding of the Python runtime partiality -/

/-- Python exceptions that can escape the embedded code: `ValueError`
(raised explicitly by the constructor guards, and by `math.sqrt`/`math.log`
on a domain error) and `ZeroDivisionError` (float division by zero). -/
inductive PyErr where
  | valueError : PyErr
  | zeroDivisionError : PyErr
deriving DecidableEq, Repr

/-- Python float division: `a / b` raises `ZeroDivisionError` when `b = 0`. -/
noncomputable def pydiv (a b : ℝ) : Except PyErr ℝ :=
  if b = 0 then Except.error PyErr.zeroDivisionError else Except.ok (a / b)

/-- `math.sqrt`: raises `ValueError` (math domain error) on negative input. -/
noncomputable def pysqrt (x : ℝ) : Except PyErr ℝ :=
  if x < 0 then Except.error PyErr.valueError else Except.ok (Real.sqrt x)

/-- `math.log`: raises `ValueError` (math domain error) on input `≤ 0`. -/
noncomputable def pylog (x : ℝ) : Except PyErr ℝ :=
  if x ≤ 0 then Except.error PyErr.valueError else Except.ok (Real.log x)

/-! ## The `Option` instrument (named `OptionInst` here because `Option`
is taken by Lean); fields and constructor guards of `Option.__init__`. -/

structure OptionInst where
  option_type : String
  underlying_price : ℝ
  strike_price : ℝ
  interest_rate : ℝ
  dividend_yield : ℝ
  time_to_maturity : ℤ
  implied_volatility : ℝ

/-- `Option.__init__`: rejects an `option_type` outside {"Call", "Put"},
then rejects any non-positive `underlying_price`, `strike_price`,
`time_to_maturity`, `implied_volatility`; otherwise stores the fields. -/
noncomputable def mkOption (option_type : String) (underlying_price strike_price interest_rate dividend_yield : ℝ) (time_to_maturity : ℤ) (implied_volatility : ℝ) : Except PyErr OptionInst :=
  if ¬ (option_type = "Call" ∨ option_type = "Put") then
    Except.error PyErr.valueError
  else if underlying_price ≤ 0 ∨ strike_price ≤ 0 ∨ time_to_maturity ≤ 0 ∨ implied_volatility ≤ 0 then
    Except.error PyErr.valueError
  else
    Except.ok (OptionInst.mk option_type underlying_price strike_price interest_rate dividend_yield time_to_maturity implied_volatility)

/-- The instrument invariant established by `Option.__init__`. -/
def ValidOpt (o : OptionInst) : Prop :=
  (o.option_type = "Call" ∨ o.option_type = "Put") ∧
    0 < o.underlying_price ∧ 0 < o.strike_price ∧
    0 < o.time_to_maturity ∧ 0 < o.implied_volatility

/-- `Option._calculate_d1_d2`, keeping the evaluation order of the Python
expression: the ratio inside the log, the log, `math.sqrt(T)`, then the
division by `sigma * sqrt T`. -/
noncomputable def calculate_d1_d2 (S K T r q sigma : ℝ) : Except PyErr (ℝ × ℝ) := do
  let ratio ← pydiv (S * Real.exp (-q * T)) (K * Real.exp (-r * T))
  let lg ← pylog ratio
  let sq ← pysqrt T
  let d1 ← pydiv (lg + 0.5 * sigma ^ 2 * T) (sigma * sq)
  Except.ok (d1, d1 - sigma * sq)

/-- The override-merging preamble shared by all five pricing methods:
`T = (given or stored days) / 365`, `S`, `sigma` from override or stored. -/
noncomputable def mergedT (o : OptionInst) (ttm : Option ℤ) : ℝ :=
  (match ttm with
   | Option.none => (o.time_to_maturity : ℝ)
   | Option.some t => (t : ℝ)) / 365

noncomputable def mergedS (o : OptionInst) (up : Option ℝ) : ℝ :=
  match up with
  | Option.none => o.underlying_price
  | Option.some s => s

noncomputable def mergedSigma (o : OptionInst) (iv : Option ℝ) : ℝ :=
  match iv with
  | Option.none => o.implied_volatility
  | Option.some v => v

/-- `Option.black_scholes` with its optional per-call overrides. -/
noncomputable def OptionInst.black_scholes (o : OptionInst) (up : Option ℝ) (ttm : Option ℤ) (iv : Option ℝ) : Except PyErr ℝ := do
  let T := mergedT o ttm
  let S := mergedS o up
  let K := o.strike_price
  let r := o.interest_rate
  let q := o.dividend_yield
  let sigma := mergedSigma o iv
  let d ← calculate_d1_d2 S K T r q sigma
  if o.option_type = "Call" then
    Except.ok (S * Real.exp (-q * T) * normCdf d.1 - K * Real.exp (-r * T) * normCdf d.2)
  else
    Except.ok (K * Real.exp (-r * T) * normCdf (-d.2) - S * Real.exp (-q * T) * normCdf (-d.1))

/-- `Option.delta` with its optional per-call overrides. -/
noncomputable def OptionInst.delta (o : OptionInst) (up : Option ℝ) (ttm : Option ℤ) (iv : Option ℝ) : Except PyErr ℝ := do
  let T := mergedT o ttm
  let S := mergedS o up
  let K := o.strike_price
  let r := o.interest_rate
  let q := o.dividend_yield
  let sigma := mergedSigma o iv
  let d ← calculate_d1_d2 S K T r q sigma
  if o.option_type = "Call" then
    Except.ok (Real.exp (-q * T) * normCdf d.1)
  else
    Except.ok (Real.exp (-q * T) * (normCdf d.1 - 1))

/-- `Option.vega` with its optional per-call overrides. -/
noncomputable def OptionInst.vega (o : OptionInst) (up : Option ℝ) (ttm : Option ℤ) (iv : Option ℝ) : Except PyErr ℝ := do
  let T := mergedT o ttm
  let S := mergedS o up
  let K := o.strike_price
  let r := o.interest_rate
  let q := o.dividend_yield
  let sigma := mergedSigma o iv
  let d ← calculate_d1_d2 S K T r q sigma
  Except.ok (S * Real.exp (-q * T) * normPdf d.1 * Real.sqrt T * 0.01)

/-- `Option.gamma` with its optional per-call overrides. -/
noncomputable def OptionInst.gamma (o : OptionInst) (up : Option ℝ) (ttm : Option ℤ) (iv : Option ℝ) : Except PyErr ℝ := do
  let T := mergedT o ttm
  let S := mergedS o up
  let K := o.strike_price
  let r := o.interest_rate
  let q := o.dividend_yield
  let sigma := mergedSigma o iv
  let d ← calculate_d1_d2 S K T r q sigma
  Except.ok (normPdf d.1 * Real.exp (-q * T) / (S * sigma * Real.sqrt T))

/-- `Option.theta` with its optional per-call overrides. -/
noncomputable def OptionInst.theta (o : OptionInst) (up : Option ℝ) (ttm : Option ℤ) (iv : Option ℝ) : Except PyErr ℝ := do
  let T := mergedT o ttm
  let S := mergedS o up
  let K := o.strike_price
  let r := o.interest_rate
  let q := o.dividend_yield
  let sigma := mergedSigma o iv
  let d ← calculate_d1_d2 S K T r q sigma
  if o.option_type = "Call" then
    Except.ok ((-S * normPdf d.1 * sigma * Real.exp (-q * T) / (2 * Real.sqrt T) +
        q * S * normCdf d.1 * Real.exp (-q * T) -
        r * K * Real.exp (-r * T) * normCdf d.2) / 365)
  else
    Except.ok ((-S * normPdf d.1 * sigma * Real.exp (-q * T) / (2 * Real.sqrt T) -
        q * S * normCdf (-d.1) * Real.exp (-q * T) +
        r * K * Real.exp (-r * T) * normCdf (-d.2)) / 365)

/-! ## Pure values of the pricing formulas on valid inputs -/

/-- Value of `d1` as computed by `_calculate_d1_d2` on inputs where no
runtime error occurs. -/
noncomputable def d1_val (S K T r q sigma : ℝ) : ℝ :=
  (Real.log (S * Real.exp (-q * T) / (K * Real.exp (-r * T))) + 0.5 * sigma ^ 2 * T) /
    (sigma * Real.sqrt T)

/-- Value of `d2` as computed by `_calculate_d1_d2`. -/
noncomputable def d2_val (S K T r q sigma : ℝ) : ℝ :=
  d1_val S K T r q sigma - sigma * Real.sqrt T

/-- Value returned by `black_scholes` on inputs where no error occurs. -/
noncomputable def price_val (kind : String) (S K T r q sigma : ℝ) : ℝ :=
  if kind = "Call" then
    S * Real.exp (-q * T) * normCdf (d1_val S K T r q sigma) -
      K * Real.exp (-r * T) * normCdf (d2_val S K T r q sigma)
  else
    K * Real.exp (-r * T) * normCdf (-(d2_val S K T r q sigma)) -
      S * Real.exp (-q * T) * normCdf (-(d1_val S K T r q sigma))

/-- Value returned by `delta` on inputs where no error occurs. -/
noncomputable def delta_val (kind : String) (S K T r q sigma : ℝ) : ℝ :=
  if kind = "Call" then Real.exp (-q * T) * normCdf (d1_val S K T r q sigma)
  else Real.exp (-q * T) * (normCdf (d1_val S K T r q sigma) - 1)

/-- Value returned by `vega` on inputs where no error occurs. -/
noncomputable def vega_val (S K T r q sigma : ℝ) : ℝ :=
  S * Real.exp (-q * T) * normPdf (d1_val S K T r q sigma) * Real.sqrt T * 0.01

/-- Value returned by `gamma` on inputs where no error occurs. -/
noncomputable def gamma_val (S K T r q sigma : ℝ) : ℝ :=
  normPdf (d1_val S K T r q sigma) * Real.exp (-q * T) / (S * sigma * Real.sqrt T)

/-- Value returned by `theta` on inputs where no error occurs. -/
noncomputable def theta_val (kind : String) (S K T r q sigma : ℝ) : ℝ :=
  if kind = "Call" then
    (-S * normPdf (d1_val S K T r q sigma) * sigma * Real.exp (-q * T) / (2 * Real.sqrt T) +
        q * S * normCdf (d1_val S K T r q sigma) * Real.exp (-q * T) -
        r * K * Real.exp (-r * T) * normCdf (d2_val S K T r q sigma)) / 365
  else
    (-S * normPdf (d1_val S K T r q sigma) * sigma * Real.exp (-q * T) / (2 * Real.sqrt T) -
        q * S * normCdf (-(d1_val S K T r q sigma)) * Real.exp (-q * T) +
        r * K * Real.exp (-r * T) * normCdf (-(d2_val S K T r q sigma))) / 365

/-! ## `Forward` and `Portfolio` -/

/-- The `Forward` contract: only an underlying price. -/
structure Forward where
  underlying_price : ℝ

/-- One element of `Portfolio.options`: the dict
`{'option': ..., 'quantity': ..., 'contract_size': ...}`. -/
structure OptionEntry where
  option : OptionInst
  quantity : ℝ
  contract_size : ℝ

/-- One element of `Portfolio.forwards`. -/
structure ForwardEntry where
  forward : Forward
  quantity : ℝ
  contract_size : ℝ

/-- The `Portfolio`: a value plus the two append-only entry lists. -/
structure Portfolio where
  portfolio_value : ℝ
  options : List OptionEntry
  forwards : List ForwardEntry

/-- `Portfolio.add_option` appends to the options list. -/
def Portfolio.add_option (p : Portfolio) (o : OptionInst) (quantity contract_size : ℝ) : Portfolio :=
  Portfolio.mk p.portfolio_value (p.options ++ [OptionEntry.mk o quantity contract_size]) p.forwards

/-- `Portfolio.add_forward` appends to the forwards list. -/
def Portfolio.add_forward (p : Portfolio) (f : Forward) (quantity contract_size : ℝ) : Portfolio :=
  Portfolio.mk p.portfolio_value p.options (p.forwards ++ [ForwardEntry.mk f quantity contract_size])

/-- The `for` loop of `Portfolio.total_premium_amount`:
`total_value += option.black_scholes() * quantity * contract_size`. -/
noncomputable def premiumLoop : ℝ → List OptionEntry → Except PyErr ℝ
  | total, [] => Except.ok total
  | total, e :: rest => do
      let v ← e.option.black_scholes Option.none Option.none Option.none
      premiumLoop (total + v * e.quantity * e.contract_size) rest

/-- `Portfolio.total_premium_amount`.  Note: no division by
`portfolio_value` occurs here. -/
noncomputable def Portfolio.total_premium_amount (p : Portfolio) : Except PyErr ℝ :=
  premiumLoop 0 p.options

/-- The options `for` loop of `Portfolio.delta`:
`total_delta += option.delta() * quantity * contract_size *
option.underlying_price / self.portfolio_value`. -/
noncomputable def deltaOptLoop (pv : ℝ) : ℝ → List OptionEntry → Except PyErr ℝ
  | total, [] => Except.ok total
  | total, e :: rest => do
      let d ← e.option.delta Option.none Option.none Option.none
      let term ← pydiv (d * e.quantity * e.contract_size * e.option.underlying_price) pv
      deltaOptLoop pv (total + term) rest

/-- The forwards `for` loop of `Portfolio.delta`:
`total_delta += quantity * contract_size * forward.underlying_price /
self.portfolio_value`. -/
noncomputable def deltaFwdLoop (pv : ℝ) : ℝ → List ForwardEntry → Except PyErr ℝ
  | total, [] => Except.ok total
  | total, e :: rest => do
      let term ← pydiv (e.quantity * e.contract_size * e.forward.underlying_price) pv
      deltaFwdLoop pv (total + term) rest

/-- `Portfolio.delta`: the options loop then the forwards loop, each step
dividing by `portfolio_value` (a `ZeroDivisionError` when it is zero). -/
noncomputable def Portfolio.delta (p : Portfolio) : Except PyErr ℝ := do
  let t1 ← deltaOptLoop p.portfolio_value 0 p.options
  deltaFwdLoop p.portfolio_value t1 p.forwards

/-- The `for` loop of `Portfolio.gamma`: `total_gamma += option.gamma() *
quantity * contract_size * option.underlying_price ** 2 / 100 /
self.portfolio_value`, with the two source divisions kept separate. -/
noncomputable def gammaLoop (pv : ℝ) : ℝ → List OptionEntry → Except PyErr ℝ
  | total, [] => Except.ok total
  | total, e :: rest => do
      let g ← e.option.gamma Option.none Option.none Option.none
      let t1 ← pydiv (g * e.quantity * e.contract_size * e.option.underlying_price ^ 2) 100
      let term ← pydiv t1 pv
      gammaLoop pv (total + term) rest

/-- `Portfolio.gamma`. -/
noncomputable def Portfolio.gamma (p : Portfolio) : Except PyErr ℝ :=
  gammaLoop p.portfolio_value 0 p.options

/-- The `for` loop of `Portfolio.vega`: `total_vega += option.vega() *
quantity * contract_size * 10000 / self.portfolio_value`. -/
noncomputable def vegaLoop (pv : ℝ) : ℝ → List OptionEntry → Except PyErr ℝ
  | total, [] => Except.ok total
  | total, e :: rest => do
      let v ← e.option.vega Option.none Option.none Option.none
      let term ← pydiv (v * e.quantity * e.contract_size * 10000) pv
      vegaLoop pv (total + term) rest

/-- `Portfolio.vega`. -/
noncomputable def Portfolio.vega (p : Portfolio) : Except PyErr ℝ :=
  vegaLoop p.portfolio_value 0 p.options

/-- The `for` loop of `Portfolio.theta`: `total_theta += option.theta() *
quantity * contract_size * 10000 / self.portfolio_value`. -/
noncomputable def thetaLoop (pv : ℝ) : ℝ → List OptionEntry → Except PyErr ℝ
  | total, [] => Except.ok total
  | total, e :: rest => do
      let t ← e.option.theta Option.none Option.none Option.none
      let term ← pydiv (t * e.quantity * e.contract_size * 10000) pv
      thetaLoop pv (total + term) rest

/-- `Portfolio.theta`. -/
noncomputable def Portfolio.theta (p : Portfolio) : Except PyErr ℝ :=
  thetaLoop p.portfolio_value 0 p.options

/-! ## Volatility estimator (vol.py)

Timestamps are modelled as (month, day-within-month) pairs; prices as a
list of (date, price) samples.  Pandas missing values (NaN produced by
`pct_change` / an under-filled rolling window) are modelled by `Option ℝ`
with `Option.none` as the insufficient-data marker. -/

structure Date where
  month : ℕ
  day : ℕ
deriving DecidableEq, Repr

/-- Chronological order on dates. -/
def dateLe (a b : Date) : Prop :=
  a.month < b.month ∨ (a.month = b.month ∧ a.day ≤ b.day)

instance : DecidableRel dateLe := fun a b =>
  decidable_of_iff (a.month < b.month ∨ (a.month = b.month ∧ a.day ≤ b.day)) Iff.rfl

/-- `historical_prices.sort_index()` performed by `Volatility.__init__`. -/
def sortPrices (l : List (Date × ℝ)) : List (Date × ℝ) :=
  List.insertionSort (fun a b => dateLe a.1 b.1) l

/-- `Series.pct_change` past the first sample: simple returns
`p_t / p_{t-1} - 1`. -/
noncomputable def pct_change_aux : ℝ → List (Date × ℝ) → List (Date × Option ℝ)
  | _, [] => []
  | prev, x :: xs => (x.1, Option.some (x.2 / prev - 1)) :: pct_change_aux x.2 xs

/-- `Series.pct_change`: the first sample yields NaN (`Option.none`). -/
noncomputable def pct_change : List (Date × ℝ) → List (Date × Option ℝ)
  | [] => []
  | x :: xs => (x.1, Option.none) :: pct_change_aux x.2 xs

/-- `Series.dropna`. -/
def dropna (l : List (Date × Option ℝ)) : List (Date × ℝ) :=
  l.filterMap (fun p => p.2.map (fun r => (p.1, r)))

/-- Mean of a list of reals. -/
noncomputable def listMean (xs : List ℝ) : ℝ := xs.sum / xs.length

/-- Sample standard deviation (pandas `std`, `ddof = 1`). -/
noncomputable def sampleStd (xs : List ℝ) : ℝ :=
  Real.sqrt ((xs.map (fun x => (x - listMean xs) ^ 2)).sum / ((xs.length : ℝ) - 1))

/-- `rolling(window=w).std()` walked with the 0-based position `i`; a
position with fewer than `w` trailing observations yields NaN
(`Option.none`); otherwise the sample std of the trailing `w` values. -/
noncomputable def rollingStdFrom (w : ℕ) (full : List (Date × ℝ)) : ℕ → List (Date × ℝ) → List (Date × Option ℝ)
  | _, [] => []
  | i, x :: xs =>
      (x.1, if i + 1 < w then Option.none
        else Option.some (sampleStd (((full.take (i + 1)).drop (i + 1 - w)).map Prod.snd))) ::
        rollingStdFrom w full (i + 1) xs

/-- `rolling(window=w).std()` over a whole series. -/
noncomputable def rollingStd (w : ℕ) (l : List (Date × ℝ)) : List (Date × Option ℝ) :=
  rollingStdFrom w l 0 l

/-- `GroupBy.last`: the last non-NaN value of a group, NaN if none. -/
def lastNonNone (l : List (Option ℝ)) : Option ℝ :=
  l.foldl (fun acc v => match v with | Option.none => acc | Option.some r => Option.some r)
    Option.none

/-- `resample('M').last()`: one output row per calendar month between the
first and the last index entry, holding the last non-NaN value of that
month (NaN when the month has no non-NaN value). -/
def resampleMonthLast (l : List (Date × Option ℝ)) : List (ℕ × Option ℝ) :=
  match l.head?, l.getLast? with
  | Option.some a, Option.some b =>
      (List.range' a.1.month (b.1.month - a.1.month + 1)).map
        (fun m => (m, lastNonNone ((l.filter (fun p => p.1.month == m)).map Prod.snd)))
  | _, _ => []

/-- `daily_returns` of `compute_monthly_30d_volatility`. -/
noncomputable def dailyReturnsOf (prices : List (Date × ℝ)) : List (Date × ℝ) :=
  dropna (pct_change (sortPrices prices))

/-- `rolling_volatility` of `compute_monthly_30d_volatility`:
30-sample rolling std of the daily returns, annualized by `sqrt 252`. -/
noncomputable def rollingVolOf (prices : List (Date × ℝ)) : List (Date × Option ℝ) :=
  (rollingStd 30 (dailyReturnsOf prices)).map
    (fun p => (p.1, p.2.map (fun v => v * Real.sqrt 252)))

/-- `Volatility.compute_monthly_30d_volatility`. -/
noncomputable def compute_monthly_30d_volatility (prices : List (Date × ℝ)) : List (ℕ × Option ℝ) :=
  resampleMonthLast (rollingVolOf prices)

/-! ## Spec-side formulas (for the refinement claim about `price()`)

`specD1`, `specD2`, `specPrice` follow the wording of spec §4.1:
`d1 = ( ln( S·e^(-q·T) / (K·e^(-r·T)) ) + 0.5·σ²·T ) / (σ·√T)`,
`d2 = d1 − σ·√T`, and
`price()`: Call → `S·e^(−qT)·N(d1) − K·e^(−rT)·N(d2)`;
Put → `K·e^(−rT)·N(−d2) − S·e^(−qT)·N(−d1)`. -/

noncomputable def specD1 (S K r q T sigma : ℝ) : ℝ :=
  (Real.log (S * Real.exp (-q * T) / (K * Real.exp (-r * T))) + 0.5 * sigma ^ 2 * T) /
    (sigma * Real.sqrt T)

noncomputable def specD2 (S K r q T sigma : ℝ) : ℝ :=
  specD1 S K r q T sigma - sigma * Real.sqrt T

noncomputable def specPrice (kind : String) (S K r q T sigma : ℝ) : ℝ :=
  if kind = "Call" then
    S * Real.exp (-q * T) * normCdf (specD1 S K r q T sigma) -
      K * Real.exp (-r * T) * normCdf (specD2 S K r q T sigma)
  else
    K * Real.exp (-r * T) * normCdf (-specD2 S K r q T sigma) -
      S * Real.exp (-q * T) * normCdf (-specD1 S K r q T sigma)

/-- The two recognized `option_type` strings. -/
def callType : String := "Call"

def putType : String := "Put"

/-! ## State-threaded method forms (for the no-mutation claim)

A Python method call returns its result together with the post-call
receiver.  The five pricing method bodies bind only local variables and
contain no assignment to any attribute of `self`, so their statement-by-
statement translation leaves the receiver untouched. -/

noncomputable def black_scholes_st (o : OptionInst) (up : Option ℝ) (ttm : Option ℤ) (iv : Option ℝ) : Except PyErr (ℝ × OptionInst) :=
  (o.black_scholes up ttm iv).map (fun r => (r, o))

noncomputable def delta_st (o : OptionInst) (up : Option ℝ) (ttm : Option ℤ) (iv : Option ℝ) : Except PyErr (ℝ × OptionInst) :=
  (o.delta up ttm iv).map (fun r => (r, o))

noncomputable def vega_st (o : OptionInst) (up : Option ℝ) (ttm : Option ℤ) (iv : Option ℝ) : Except PyErr (ℝ × OptionInst) :=
  (o.vega up ttm iv).map (fun r => (r, o))

noncomputable def gamma_st (o : OptionInst) (up : Option ℝ) (ttm : Option ℤ) (iv : Option ℝ) : Except PyErr (ℝ × OptionInst) :=
  (o.gamma up ttm iv).map (fun r => (r, o))

noncomputable def theta_st (o : OptionInst) (up : Option ℝ) (ttm : Option ℤ) (iv : Option ℝ) : Except PyErr (ℝ × OptionInst) :=
  (o.theta up ttm iv).map (fun r => (r, o))

/-! ## Per-entry values of the aggregation loops on valid inputs -/

/-- The stored-parameter time to maturity in years. -/
noncomputable def yearsOf (o : OptionInst) : ℝ := (o.time_to_maturity : ℝ) / 365

/-- `option.black_scholes()` of an options-list entry. -/
noncomputable def entryPremium (e : OptionEntry) : ℝ :=
  price_val e.option.option_type e.option.underlying_price e.option.strike_price
    (yearsOf e.option) e.option.interest_rate e.option.dividend_yield
    e.option.implied_volatility

/-- `option.delta()` of an options-list entry. -/
noncomputable def entryDelta (e : OptionEntry) : ℝ :=
  delta_val e.option.option_type e.option.underlying_price e.option.strike_price
    (yearsOf e.option) e.option.interest_rate e.option.dividend_yield
    e.option.implied_volatility

lemma normPdf_eq (d : ℝ) :
    normPdf d = Real.exp (-(1 / 2) * d ^ 2) * (Real.sqrt (2 * Real.pi))⁻¹ := by
  unfold normPdf
  rw [div_eq_mul_inv]
  ring_nf

lemma normPdf_pos (d : ℝ) : 0 < normPdf d := by
  unfold normPdf
  exact div_pos (Real.exp_pos _)
    (Real.sqrt_pos.mpr (by positivity))

lemma normPdf_neg (d : ℝ) : normPdf (-d) = normPdf d := by
  unfold normPdf
  ring_nf

lemma integrable_normPdf : Integrable normPdf := by
  have h : Integrable fun x : ℝ => Real.exp (-(1 / 2) * x ^ 2) :=
    integrable_exp_neg_mul_sq (by norm_num)
  have := h.mul_const (Real.sqrt (2 * Real.pi))⁻¹
  refine this.congr ?_
  filter_upwards with x
  rw [normPdf_eq]

lemma integral_normPdf : ∫ t, normPdf t = 1 := by
  have h : ∫ x : ℝ, Real.exp (-(1 / 2) * x ^ 2) = Real.sqrt (Real.pi / (1 / 2)) :=
    integral_gaussian (1 / 2)
  have hrw : ∫ t, normPdf t
      = (∫ x : ℝ, Real.exp (-(1 / 2) * x ^ 2)) * (Real.sqrt (2 * Real.pi))⁻¹ := by
    rw [← integral_mul_right]
    exact integral_congr_ae (by filter_upwards with x using normPdf_eq x)
  rw [hrw, h]
  have h2 : Real.pi / (1 / 2) = 2 * Real.pi := by ring
  rw [h2]
  have hpos : (0 : ℝ) < Real.sqrt (2 * Real.pi) :=
    Real.sqrt_pos.mpr (by positivity)
  field_simp

/-- Reflection identity for the standard normal CDF: `N (-d) = 1 - N d`. -/
lemma normCdf_neg (d : ℝ) : normCdf (-d) = 1 - normCdf d := by
  have hIic : IntegrableOn normPdf (Set.Iic (-d)) := integrable_normPdf.integrableOn
  have hIoi : IntegrableOn normPdf (Set.Ioi (-d)) := integrable_normPdf.integrableOn
  have hsplit : (∫ t in Set.Iic (-d), normPdf t) + ∫ t in Set.Ioi (-d), normPdf t
      = ∫ t, normPdf t := intervalIntegral.integral_Iic_add_Ioi hIic hIoi
  have hrefl : (∫ t in Set.Iic d, normPdf (-t)) = ∫ t in Set.Ioi (-d), normPdf t :=
    integral_comp_neg_Iic d normPdf
  have heven : (∫ t in Set.Iic d, normPdf (-t)) = ∫ t in Set.Iic d, normPdf t :=
    integral_congr_ae (by filter_upwards with t using normPdf_neg t)
  have : (∫ t in Set.Iic (-d), normPdf t) + ∫ t in Set.Iic d, normPdf t = 1 := by
    rw [← heven, hrefl] at *
    rw [hsplit, integral_normPdf]
  unfold normCdf
  linarith

lemma normCdf_add_neg (d : ℝ) : normCdf d + normCdf (-d) = 1 := by
  rw [normCdf_neg]; ring

lemma calculate_d1_d2_ok {S K T sigma : ℝ} (r q : ℝ) (hS : 0 < S) (hK : 0 < K)
    (hT : 0 < T) (hsig : sigma ≠ 0) :
    calculate_d1_d2 S K T r q sigma =
      Except.ok (d1_val S K T r q sigma, d2_val S K T r q sigma) := by
  have hden : K * Real.exp (-r * T) ≠ 0 := (mul_pos hK (Real.exp_pos _)).ne'
  have hratio : 0 < S * Real.exp (-q * T) / (K * Real.exp (-r * T)) :=
    div_pos (mul_pos hS (Real.exp_pos _)) (mul_pos hK (Real.exp_pos _))
  have hsq : sigma * Real.sqrt T ≠ 0 :=
    mul_ne_zero hsig (Real.sqrt_pos.mpr hT).ne'
  unfold calculate_d1_d2 pydiv pylog pysqrt
  rw [if_neg hden]
  simp only [Bind.bind, Except.bind]
  rw [if_neg (not_le.mpr hratio)]
  simp only [Except.bind]
  rw [if_neg (not_lt.mpr hT.le)]
  simp only [Except.bind]
  rw [if_neg hsq]
  simp only [Except.bind, d1_val, d2_val]

lemma calculate_d1_d2_T_zero {S K : ℝ} (r q sigma : ℝ) (hS : 0 < S) (hK : 0 < K) :
    calculate_d1_d2 S K 0 r q sigma = Except.error PyErr.zeroDivisionError := by
  have hden : K * Real.exp (-r * 0) ≠ 0 := (mul_pos hK (Real.exp_pos _)).ne'
  have hratio : 0 < S * Real.exp (-q * 0) / (K * Real.exp (-r * 0)) :=
    div_pos (mul_pos hS (Real.exp_pos _)) (mul_pos hK (Real.exp_pos _))
  unfold calculate_d1_d2 pydiv pylog pysqrt
  rw [if_neg hden]
  simp only [Bind.bind, Except.bind]
  rw [if_neg (not_le.mpr hratio)]
  simp only [Except.bind]
  rw [if_neg (lt_irrefl (0 : ℝ))]
  simp

lemma calculate_d1_d2_T_neg {S K T : ℝ} (r q sigma : ℝ) (hS : 0 < S) (hK : 0 < K)
    (hT : T < 0) :
    calculate_d1_d2 S K T r q sigma = Except.error PyErr.valueError := by
  have hden : K * Real.exp (-r * T) ≠ 0 := (mul_pos hK (Real.exp_pos _)).ne'
  have hratio : 0 < S * Real.exp (-q * T) / (K * Real.exp (-r * T)) :=
    div_pos (mul_pos hS (Real.exp_pos _)) (mul_pos hK (Real.exp_pos _))
  unfold calculate_d1_d2 pydiv pylog pysqrt
  rw [if_neg hden]
  simp only [Bind.bind, Except.bind]
  rw [if_neg (not_le.mpr hratio)]
  simp only [Except.bind]
  rw [if_pos hT]

lemma calculate_d1_d2_sigma_zero {S K T : ℝ} (r q : ℝ) (hS : 0 < S) (hK : 0 < K)
    (hT : 0 ≤ T) :
    calculate_d1_d2 S K T r q 0 = Except.error PyErr.zeroDivisionError := by
  have hden : K * Real.exp (-r * T) ≠ 0 := (mul_pos hK (Real.exp_pos _)).ne'
  have hratio : 0 < S * Real.exp (-q * T) / (K * Real.exp (-r * T)) :=
    div_pos (mul_pos hS (Real.exp_pos _)) (mul_pos hK (Real.exp_pos _))
  unfold calculate_d1_d2 pydiv pylog pysqrt
  rw [if_neg hden]
  simp only [Bind.bind, Except.bind]
  rw [if_neg (not_le.mpr hratio)]
  simp only [Except.bind]
  rw [if_neg (not_lt.mpr hT)]
  simp

lemma black_scholes_ok (o : OptionInst) (up : Option ℝ) (ttm : Option ℤ) (iv : Option ℝ)
    (hS : 0 < mergedS o up) (hK : 0 < o.strike_price) (hT : 0 < mergedT o ttm)
    (hsig : mergedSigma o iv ≠ 0) :
    o.black_scholes up ttm iv =
      Except.ok (price_val o.option_type (mergedS o up) o.strike_price (mergedT o ttm)
        o.interest_rate o.dividend_yield (mergedSigma o iv)) := by
  simp only [OptionInst.black_scholes, Bind.bind]
  rw [calculate_d1_d2_ok o.interest_rate o.dividend_yield hS hK hT hsig]
  simp only [Except.bind, price_val]
  exact (apply_ite Except.ok _ _ _).symm

lemma delta_ok (o : OptionInst) (up : Option ℝ) (ttm : Option ℤ) (iv : Option ℝ)
    (hS : 0 < mergedS o up) (hK : 0 < o.strike_price) (hT : 0 < mergedT o ttm)
    (hsig : mergedSigma o iv ≠ 0) :
    o.delta up ttm iv =
      Except.ok (delta_val o.option_type (mergedS o up) o.strike_price (mergedT o ttm)
        o.interest_rate o.dividend_yield (mergedSigma o iv)) := by
  simp only [OptionInst.delta, Bind.bind]
  rw [calculate_d1_d2_ok o.interest_rate o.dividend_yield hS hK hT hsig]
  simp only [Except.bind, delta_val]
  exact (apply_ite Except.ok _ _ _).symm

lemma vega_ok (o : OptionInst) (up : Option ℝ) (ttm : Option ℤ) (iv : Option ℝ)
    (hS : 0 < mergedS o up) (hK : 0 < o.strike_price) (hT : 0 < mergedT o ttm)
    (hsig : mergedSigma o iv ≠ 0) :
    o.vega up ttm iv =
      Except.ok (vega_val (mergedS o up) o.strike_price (mergedT o ttm)
        o.interest_rate o.dividend_yield (mergedSigma o iv)) := by
  simp only [OptionInst.vega, Bind.bind]
  rw [calculate_d1_d2_ok o.interest_rate o.dividend_yield hS hK hT hsig]
  simp only [Except.bind, vega_val]

lemma gamma_ok (o : OptionInst) (up : Option ℝ) (ttm : Option ℤ) (iv : Option ℝ)
    (hS : 0 < mergedS o up) (hK : 0 < o.strike_price) (hT : 0 < mergedT o ttm)
    (hsig : mergedSigma o iv ≠ 0) :
    o.gamma up ttm iv =
      Except.ok (gamma_val (mergedS o up) o.strike_price (mergedT o ttm)
        o.interest_rate o.dividend_yield (mergedSigma o iv)) := by
  simp only [OptionInst.gamma, Bind.bind]
  rw [calculate_d1_d2_ok o.interest_rate o.dividend_yield hS hK hT hsig]
  simp only [Except.bind, gamma_val]

lemma theta_ok (o : OptionInst) (up : Option ℝ) (ttm : Option ℤ) (iv : Option ℝ)
    (hS : 0 < mergedS o up) (hK : 0 < o.strike_price) (hT : 0 < mergedT o ttm)
    (hsig : mergedSigma o iv ≠ 0) :
    o.theta up ttm iv =
      Except.ok (theta_val o.option_type (mergedS o up) o.strike_price (mergedT o ttm)
        o.interest_rate o.dividend_yield (mergedSigma o iv)) := by
  simp only [OptionInst.theta, Bind.bind]
  rw [calculate_d1_d2_ok o.interest_rate o.dividend_yield hS hK hT hsig]
  simp only [Except.bind, theta_val]
  exact (apply_ite Except.ok _ _ _).symm

lemma black_scholes_err (o : OptionInst) (up : Option ℝ) (ttm : Option ℤ) (iv : Option ℝ)
    (e : PyErr)
    (h : calculate_d1_d2 (mergedS o up) o.strike_price (mergedT o ttm)
      o.interest_rate o.dividend_yield (mergedSigma o iv) = Except.error e) :
    o.black_scholes up ttm iv = Except.error e := by
  simp only [OptionInst.black_scholes, Bind.bind]
  rw [h]
  rfl

lemma delta_err (o : OptionInst) (up : Option ℝ) (ttm : Option ℤ) (iv : Option ℝ)
    (e : PyErr)
    (h : calculate_d1_d2 (mergedS o up) o.strike_price (mergedT o ttm)
      o.interest_rate o.dividend_yield (mergedSigma o iv) = Except.error e) :
    o.delta up ttm iv = Except.error e := by
  simp only [OptionInst.delta, Bind.bind]
  rw [h]
  rfl

lemma vega_err (o : OptionInst) (up : Option ℝ) (ttm : Option ℤ) (iv : Option ℝ)
    (e : PyErr)
    (h : calculate_d1_d2 (mergedS o up) o.strike_price (mergedT o ttm)
      o.interest_rate o.dividend_yield (mergedSigma o iv) = Except.error e) :
    o.vega up ttm iv = Except.error e := by
  simp only [OptionInst.vega, Bind.bind]
  rw [h]
  rfl

lemma gamma_err (o : OptionInst) (up : Option ℝ) (ttm : Option ℤ) (iv : Option ℝ)
    (e : PyErr)
    (h : calculate_d1_d2 (mergedS o up) o.strike_price (mergedT o ttm)
      o.interest_rate o.dividend_yield (mergedSigma o iv) = Except.error e) :
    o.gamma up ttm iv = Except.error e := by
  simp only [OptionInst.gamma, Bind.bind]
  rw [h]
  rfl

lemma theta_err (o : OptionInst) (up : Option ℝ) (ttm : Option ℤ) (iv : Option ℝ)
    (e : PyErr)
    (h : calculate_d1_d2 (mergedS o up) o.strike_price (mergedT o ttm)
      o.interest_rate o.dividend_yield (mergedSigma o iv) = Except.error e) :
    o.theta up ttm iv = Except.error e := by
  simp only [OptionInst.theta, Bind.bind]
  rw [h]
  rfl

/-! ## Claim theorems -/

lemma mergedT_none (o : OptionInst) : mergedT o Option.none = yearsOf o := rfl

lemma mergedS_none (o : OptionInst) : mergedS o Option.none = o.underlying_price := rfl

lemma mergedSigma_none (o : OptionInst) : mergedSigma o Option.none = o.implied_volatility := rfl

lemma yearsOf_pos {o : OptionInst} (h : 0 < o.time_to_maturity) : 0 < yearsOf o :=
  div_pos (by exact_mod_cast h) (by norm_num)

/-- C7: constructing an option instrument fails with `InvalidInstrumentError`
(the constructor's `ValueError`) iff the kind is not Call/Put or one of
underlying price, strike, days to maturity, implied volatility is `≤ 0`;
otherwise construction succeeds and stores exactly the given parameters. -/
theorem C7_construction_iff (option_type : String) (underlying_price strike_price interest_rate dividend_yield : ℝ) (time_to_maturity : ℤ) (implied_volatility : ℝ) :
    (mkOption option_type underlying_price strike_price interest_rate dividend_yield time_to_maturity implied_volatility = Except.error PyErr.valueError ↔
      (¬ (option_type = "Call" ∨ option_type = "Put") ∨ underlying_price ≤ 0 ∨
        strike_price ≤ 0 ∨ time_to_maturity ≤ 0 ∨ implied_volatility ≤ 0)) ∧
    (mkOption option_type underlying_price strike_price interest_rate dividend_yield time_to_maturity implied_volatility =
        Except.ok (OptionInst.mk option_type underlying_price strike_price interest_rate dividend_yield time_to_maturity implied_volatility) ↔
      ¬ (¬ (option_type = "Call" ∨ option_type = "Put") ∨ underlying_price ≤ 0 ∨
        strike_price ≤ 0 ∨ time_to_maturity ≤ 0 ∨ implied_volatility ≤ 0)) := by
  by_cases h1 : option_type = "Call" ∨ option_type = "Put" <;>
    by_cases h2 : underlying_price ≤ 0 ∨ strike_price ≤ 0 ∨ time_to_maturity ≤ 0 ∨
      implied_volatility ≤ 0 <;>
    simp [mkOption, h1, h2]

/-- C10: on a portfolio with no option and no forward entries, all five
aggregate queries return `0` without error, for every `portfolio_value`
(including zero — no division is performed on an empty entry set). -/
theorem C10_empty_portfolio (pv : ℝ) :
    Portfolio.total_premium_amount (Portfolio.mk pv [] []) = Except.ok 0 ∧
    Portfolio.delta (Portfolio.mk pv [] []) = Except.ok 0 ∧
    Portfolio.gamma (Portfolio.mk pv [] []) = Except.ok 0 ∧
    Portfolio.vega (Portfolio.mk pv [] []) = Except.ok 0 ∧
    Portfolio.theta (Portfolio.mk pv [] []) = Except.ok 0 :=
  ⟨rfl, rfl, rfl, rfl, rfl⟩

/-- C8: every pricing call, with any combination of per-call overrides,
leaves the receiver unchanged: whenever the state-threaded call returns a
post-call receiver, it is the original instrument (hence all seven stored
fields are unchanged). -/
theorem C8_no_mutation (o : OptionInst) (up : Option ℝ) (ttm : Option ℤ) (iv : Option ℝ) :
    (black_scholes_st o up ttm iv).map Prod.snd = (o.black_scholes up ttm iv).map (fun _ => o) ∧
    (delta_st o up ttm iv).map Prod.snd = (o.delta up ttm iv).map (fun _ => o) ∧
    (gamma_st o up ttm iv).map Prod.snd = (o.gamma up ttm iv).map (fun _ => o) ∧
    (vega_st o up ttm iv).map Prod.snd = (o.vega up ttm iv).map (fun _ => o) ∧
    (theta_st o up ttm iv).map Prod.snd = (o.theta up ttm iv).map (fun _ => o) := by
  refine ⟨?_, ?_, ?_, ?_, ?_⟩
  · cases h : o.black_scholes up ttm iv <;> simp [black_scholes_st, h, Except.map]
  · cases h : o.delta up ttm iv <;> simp [delta_st, h, Except.map]
  · cases h : o.gamma up ttm iv <;> simp [gamma_st, h, Except.map]
  · cases h : o.vega up ttm iv <;> simp [vega_st, h, Except.map]
  · cases h : o.theta up ttm iv <;> simp [theta_st, h, Except.map]

/-- C1: for a valid instrument, `price()` returns exactly the spec §4.1
Black-Scholes value (spec-side formula `specPrice`, with `T = days / 365`
and `d1`, `d2` per `specD1`, `specD2`). -/
theorem C1_price_matches_spec (o : OptionInst) (h : ValidOpt o) :
    o.black_scholes Option.none Option.none Option.none =
      Except.ok (specPrice o.option_type o.underlying_price o.strike_price
        o.interest_rate o.dividend_yield (yearsOf o) o.implied_volatility) := by
  obtain ⟨-, hS, hK, hd, hsig⟩ := h
  have hT : 0 < mergedT o Option.none := yearsOf_pos hd
  exact black_scholes_ok o Option.none Option.none Option.none hS hK hT hsig.ne'

/-- Witness for `C1_price_matches_spec` at a concrete valid Call. -/
theorem C1_price_matches_spec_witness :
    OptionInst.black_scholes (OptionInst.mk callType 1 1 0 0 365 1) Option.none Option.none Option.none =
      Except.ok (specPrice callType 1 1 0 0 (yearsOf (OptionInst.mk callType 1 1 0 0 365 1)) 1) :=
  C1_price_matches_spec (OptionInst.mk callType 1 1 0 0 365 1)
    ⟨Or.inl rfl, by norm_num, by norm_num, by norm_num, by norm_num⟩

/-- C2: put-call parity.  For any valid parameter set the Call and the Put
both price successfully, and the difference of the returned prices is
`S·e^(−qT) − K·e^(−rT)`. -/
theorem C2_put_call_parity (S K r q sigma : ℝ) (days : ℤ)
    (hS : 0 < S) (hK : 0 < K) (hdays : 0 < days) (hsig : 0 < sigma) :
    OptionInst.black_scholes (OptionInst.mk callType S K r q days sigma)
        Option.none Option.none Option.none =
      Except.ok (price_val callType S K ((days : ℝ) / 365) r q sigma) ∧
    OptionInst.black_scholes (OptionInst.mk putType S K r q days sigma)
        Option.none Option.none Option.none =
      Except.ok (price_val putType S K ((days : ℝ) / 365) r q sigma) ∧
    price_val callType S K ((days : ℝ) / 365) r q sigma -
        price_val putType S K ((days : ℝ) / 365) r q sigma =
      S * Real.exp (-q * ((days : ℝ) / 365)) - K * Real.exp (-r * ((days : ℝ) / 365)) := by
  have hT : (0 : ℝ) < (days : ℝ) / 365 := div_pos (by exact_mod_cast hdays) (by norm_num)
  refine ⟨black_scholes_ok _ _ _ _ hS hK hT hsig.ne',
    black_scholes_ok _ _ _ _ hS hK hT hsig.ne', ?_⟩
  unfold price_val
  rw [if_pos (show callType = "Call" from rfl), if_neg (by decide : ¬ putType = "Call")]
  rw [normCdf_neg, normCdf_neg]
  ring

/-- Witness for `C2_put_call_parity` at S = K = 1, r = q = 0, 365 days,
σ = 1. -/
theorem C2_put_call_parity_witness :
    OptionInst.black_scholes (OptionInst.mk callType 1 1 0 0 365 1)
        Option.none Option.none Option.none =
      Except.ok (price_val callType 1 1 (((365 : ℤ) : ℝ) / 365) 0 0 1) ∧
    OptionInst.black_scholes (OptionInst.mk putType 1 1 0 0 365 1)
        Option.none Option.none Option.none =
      Except.ok (price_val putType 1 1 (((365 : ℤ) : ℝ) / 365) 0 0 1) ∧
    price_val callType 1 1 (((365 : ℤ) : ℝ) / 365) 0 0 1 -
        price_val putType 1 1 (((365 : ℤ) : ℝ) / 365) 0 0 1 =
      1 * Real.exp (-0 * (((365 : ℤ) : ℝ) / 365)) - 1 * Real.exp (-0 * (((365 : ℤ) : ℝ) / 365)) :=
  C2_put_call_parity 1 1 0 0 1 365 (by norm_num) (by norm_num) (by norm_num) (by norm_num)

/-- C6: `gamma()` and `vega()` are kind-independent (a Call and a Put with
identical parameters return the same `gamma_val` / `vega_val`) and both
values are strictly positive on every valid parameter set. -/
theorem C6_gamma_vega_positive (S K r q sigma : ℝ) (days : ℤ)
    (hS : 0 < S) (hK : 0 < K) (hdays : 0 < days) (hsig : 0 < sigma) :
    OptionInst.gamma (OptionInst.mk callType S K r q days sigma)
        Option.none Option.none Option.none =
      Except.ok (gamma_val S K ((days : ℝ) / 365) r q sigma) ∧
    OptionInst.gamma (OptionInst.mk putType S K r q days sigma)
        Option.none Option.none Option.none =
      Except.ok (gamma_val S K ((days : ℝ) / 365) r q sigma) ∧
    0 < gamma_val S K ((days : ℝ) / 365) r q sigma ∧
    OptionInst.vega (OptionInst.mk callType S K r q days sigma)
        Option.none Option.none Option.none =
      Except.ok (vega_val S K ((days : ℝ) / 365) r q sigma) ∧
    OptionInst.vega (OptionInst.mk putType S K r q days sigma)
        Option.none Option.none Option.none =
      Except.ok (vega_val S K ((days : ℝ) / 365) r q sigma) ∧
    0 < vega_val S K ((days : ℝ) / 365) r q sigma := by
  have hT : (0 : ℝ) < (days : ℝ) / 365 := div_pos (by exact_mod_cast hdays) (by norm_num)
  refine ⟨gamma_ok _ _ _ _ hS hK hT hsig.ne', gamma_ok _ _ _ _ hS hK hT hsig.ne', ?_,
    vega_ok _ _ _ _ hS hK hT hsig.ne', vega_ok _ _ _ _ hS hK hT hsig.ne', ?_⟩
  · exact div_pos (mul_pos (normPdf_pos _) (Real.exp_pos _))
      (mul_pos (mul_pos hS hsig) (Real.sqrt_pos.mpr hT))
  · exact mul_pos (mul_pos (mul_pos (mul_pos hS (Real.exp_pos _)) (normPdf_pos _))
      (Real.sqrt_pos.mpr hT)) (by norm_num)

/-- Witness for `C6_gamma_vega_positive` at S = K = 1, r = q = 0, 365 days,
σ = 1. -/
theorem C6_gamma_vega_positive_witness :
    OptionInst.gamma (OptionInst.mk callType 1 1 0 0 365 1)
        Option.none Option.none Option.none =
      Except.ok (gamma_val 1 1 (((365 : ℤ) : ℝ) / 365) 0 0 1) ∧
    OptionInst.gamma (OptionInst.mk putType 1 1 0 0 365 1)
        Option.none Option.none Option.none =
      Except.ok (gamma_val 1 1 (((365 : ℤ) : ℝ) / 365) 0 0 1) ∧
    0 < gamma_val 1 1 (((365 : ℤ) : ℝ) / 365) 0 0 1 ∧
    OptionInst.vega (OptionInst.mk callType 1 1 0 0 365 1)
        Option.none Option.none Option.none =
      Except.ok (vega_val 1 1 (((365 : ℤ) : ℝ) / 365) 0 0 1) ∧
    OptionInst.vega (OptionInst.mk putType 1 1 0 0 365 1)
        Option.none Option.none Option.none =
      Except.ok (vega_val 1 1 (((365 : ℤ) : ℝ) / 365) 0 0 1) ∧
    0 < vega_val 1 1 (((365 : ℤ) : ℝ) / 365) 0 0 1 :=
  C6_gamma_vega_positive 1 1 0 0 1 365 (by norm_num) (by norm_num) (by norm_num) (by norm_num)

lemma entryDelta_eq (e : OptionEntry) :
    entryDelta e = delta_val e.option.option_type (mergedS e.option Option.none)
      e.option.strike_price (mergedT e.option Option.none) e.option.interest_rate
      e.option.dividend_yield (mergedSigma e.option Option.none) := rfl

lemma entryPremium_eq (e : OptionEntry) :
    entryPremium e = price_val e.option.option_type (mergedS e.option Option.none)
      e.option.strike_price (mergedT e.option Option.none) e.option.interest_rate
      e.option.dividend_yield (mergedSigma e.option Option.none) := rfl

lemma deltaOptLoop_ok (pv : ℝ) (hpv : pv ≠ 0) (l : List OptionEntry) :
    (∀ e ∈ l, ValidOpt e.option) → ∀ a : ℝ,
      deltaOptLoop pv a l = Except.ok (a + (l.map (fun e =>
        entryDelta e * e.quantity * e.contract_size * e.option.underlying_price / pv)).sum) := by
  induction l with
  | nil => intro _ a; simp [deltaOptLoop]
  | cons e tl ih =>
    intro hval a
    obtain ⟨-, hS, hK, hd, hsig⟩ := hval e (List.mem_cons_self _ _)
    have hT : 0 < mergedT e.option Option.none := yearsOf_pos hd
    have hstep : pydiv (delta_val e.option.option_type (mergedS e.option Option.none)
        e.option.strike_price (mergedT e.option Option.none) e.option.interest_rate
        e.option.dividend_yield (mergedSigma e.option Option.none) *
          e.quantity * e.contract_size * e.option.underlying_price) pv =
        Except.ok (entryDelta e * e.quantity * e.contract_size *
          e.option.underlying_price / pv) := by
      unfold pydiv
      rw [if_neg hpv, entryDelta_eq]
    simp only [deltaOptLoop, Bind.bind]
    rw [delta_ok e.option Option.none Option.none Option.none hS hK hT hsig.ne']
    simp only [Except.bind]
    rw [hstep]
    simp only [Except.bind]
    rw [ih (fun x hx => hval x (List.mem_cons_of_mem _ hx))]
    rw [List.map_cons, List.sum_cons]
    congr 1
    ring

lemma deltaFwdLoop_ok (pv : ℝ) (hpv : pv ≠ 0) (l : List ForwardEntry) :
    ∀ a : ℝ,
      deltaFwdLoop pv a l = Except.ok (a + (l.map (fun e =>
        e.quantity * e.contract_size * e.forward.underlying_price / pv)).sum) := by
  induction l with
  | nil => intro a; simp [deltaFwdLoop]
  | cons e tl ih =>
    intro a
    have hstep : pydiv (e.quantity * e.contract_size * e.forward.underlying_price) pv =
        Except.ok (e.quantity * e.contract_size * e.forward.underlying_price / pv) := by
      unfold pydiv
      rw [if_neg hpv]
    simp only [deltaFwdLoop, Bind.bind]
    rw [hstep]
    simp only [Except.bind]
    rw [ih]
    rw [List.map_cons, List.sum_cons]
    congr 1
    ring

lemma premiumLoop_ok (l : List OptionEntry) :
    (∀ e ∈ l, ValidOpt e.option) → ∀ a : ℝ,
      premiumLoop a l = Except.ok (a + (l.map (fun e =>
        entryPremium e * e.quantity * e.contract_size)).sum) := by
  induction l with
  | nil => intro _ a; simp [premiumLoop]
  | cons e tl ih =>
    intro hval a
    obtain ⟨-, hS, hK, hd, hsig⟩ := hval e (List.mem_cons_self _ _)
    have hT : 0 < mergedT e.option Option.none := yearsOf_pos hd
    simp only [premiumLoop, Bind.bind]
    rw [black_scholes_ok e.option Option.none Option.none Option.none hS hK hT hsig.ne']
    simp only [Except.bind]
    rw [ih (fun x hx => hval x (List.mem_cons_of_mem _ hx))]
    rw [List.map_cons, List.sum_cons, ← entryPremium_eq]
    congr 1
    ring

/-- C3: for a portfolio with nonzero `portfolio_value` whose option entries
are all valid instruments, `delta()` returns the option-entry sum of
`delta() × quantity × contract_size × underlyingPrice / portfolio_value`
plus the forward-entry sum of
`quantity × contract_size × underlyingPrice / portfolio_value`
(options first, forwards second, each in insertion order). -/
theorem C3_portfolio_delta (p : Portfolio) (hpv : p.portfolio_value ≠ 0)
    (hval : ∀ e ∈ p.options, ValidOpt e.option) :
    p.delta = Except.ok (
      (p.options.map (fun e =>
        entryDelta e * e.quantity * e.contract_size * e.option.underlying_price /
          p.portfolio_value)).sum +
      (p.forwards.map (fun e =>
        e.quantity * e.contract_size * e.forward.underlying_price /
          p.portfolio_value)).sum) := by
  unfold Portfolio.delta
  simp only [Bind.bind]
  rw [deltaOptLoop_ok p.portfolio_value hpv p.options hval 0]
  simp only [Except.bind]
  rw [deltaFwdLoop_ok p.portfolio_value hpv p.forwards]
  congr 1
  ring

/-- Witness for `C3_portfolio_delta`: a one-option, one-forward book on a
portfolio value of 2. -/
theorem C3_portfolio_delta_witness :
    Portfolio.delta (Portfolio.mk 2
        [OptionEntry.mk (OptionInst.mk callType 1 1 0 0 365 1) 1 1]
        [ForwardEntry.mk (Forward.mk 1) 1 1]) = Except.ok (
      ([OptionEntry.mk (OptionInst.mk callType 1 1 0 0 365 1) 1 1].map (fun e =>
        entryDelta e * e.quantity * e.contract_size * e.option.underlying_price / 2)).sum +
      ([ForwardEntry.mk (Forward.mk 1) 1 1].map (fun e =>
        e.quantity * e.contract_size * e.forward.underlying_price / 2)).sum) :=
  C3_portfolio_delta (Portfolio.mk 2
      [OptionEntry.mk (OptionInst.mk callType 1 1 0 0 365 1) 1 1]
      [ForwardEntry.mk (Forward.mk 1) 1 1]) (by norm_num)
    (by
      intro e he
      simp only [List.mem_singleton] at he
      subst he
      exact ⟨Or.inl rfl, by norm_num, by norm_num, by norm_num, by norm_num⟩)

/-- C4 counterexample: on a portfolio with `portfolio_value = 0` holding one
valid option entry, `total_premium_amount` succeeds (the method performs no
division by the portfolio value), refuting the claim that every aggregate
query fails on a zero portfolio value. -/
theorem C4_counterexample :
    Portfolio.total_premium_amount (Portfolio.mk 0
        [OptionEntry.mk (OptionInst.mk callType 1 1 0 0 365 1) 1 1] []) =
      Except.ok (entryPremium (OptionEntry.mk (OptionInst.mk callType 1 1 0 0 365 1) 1 1)) := by
  have h := premiumLoop_ok [OptionEntry.mk (OptionInst.mk callType 1 1 0 0 365 1) 1 1]
    (by
      intro e he
      simp only [List.mem_singleton] at he
      subst he
      exact ⟨Or.inl rfl, by norm_num, by norm_num, by norm_num, by norm_num⟩) 0
  unfold Portfolio.total_premium_amount
  rw [h]
  simp

lemma deltaOptLoop_pv_zero (e : OptionEntry) (tl : List OptionEntry) (a : ℝ)
    (h : ValidOpt e.option) :
    deltaOptLoop 0 a (e :: tl) = Except.error PyErr.zeroDivisionError := by
  obtain ⟨-, hS, hK, hd, hsig⟩ := h
  have hT : 0 < mergedT e.option Option.none := yearsOf_pos hd
  simp only [deltaOptLoop, Bind.bind]
  rw [delta_ok e.option Option.none Option.none Option.none hS hK hT hsig.ne']
  simp only [Except.bind]
  unfold pydiv
  rw [if_pos rfl]

lemma gammaLoop_pv_zero (e : OptionEntry) (tl : List OptionEntry) (a : ℝ)
    (h : ValidOpt e.option) :
    gammaLoop 0 a (e :: tl) = Except.error PyErr.zeroDivisionError := by
  obtain ⟨-, hS, hK, hd, hsig⟩ := h
  have hT : 0 < mergedT e.option Option.none := yearsOf_pos hd
  simp only [gammaLoop, Bind.bind]
  rw [gamma_ok e.option Option.none Option.none Option.none hS hK hT hsig.ne']
  simp only [Except.bind]
  unfold pydiv
  rw [if_neg (by norm_num : (100 : ℝ) ≠ 0)]
  simp

lemma vegaLoop_pv_zero (e : OptionEntry) (tl : List OptionEntry) (a : ℝ)
    (h : ValidOpt e.option) :
    vegaLoop 0 a (e :: tl) = Except.error PyErr.zeroDivisionError := by
  obtain ⟨-, hS, hK, hd, hsig⟩ := h
  have hT : 0 < mergedT e.option Option.none := yearsOf_pos hd
  simp only [vegaLoop, Bind.bind]
  rw [vega_ok e.option Option.none Option.none Option.none hS hK hT hsig.ne']
  simp only [Except.bind]
  unfold pydiv
  rw [if_pos rfl]

lemma thetaLoop_pv_zero (e : OptionEntry) (tl : List OptionEntry) (a : ℝ)
    (h : ValidOpt e.option) :
    thetaLoop 0 a (e :: tl) = Except.error PyErr.zeroDivisionError := by
  obtain ⟨-, hS, hK, hd, hsig⟩ := h
  have hT : 0 < mergedT e.option Option.none := yearsOf_pos hd
  simp only [thetaLoop, Bind.bind]
  rw [theta_ok e.option Option.none Option.none Option.none hS hK hT hsig.ne']
  simp only [Except.bind]
  unfold pydiv
  rw [if_pos rfl]

/-- C4 (amended): with `portfolio_value = 0` and a nonempty, valid options
list, `total_premium_amount` still succeeds — it never divides by the
portfolio value — while each normalized metric (`delta`, `gamma`, `vega`,
`theta`) fails with Python's `ZeroDivisionError` from its unguarded
per-entry division; no dedicated degenerate-portfolio error exists in the
code (and with an empty entry set none of the queries fails at all, see the
empty-portfolio theorem). -/
theorem C4_amended (pv : ℝ) (hpv : pv = 0) (e : OptionEntry) (tl : List OptionEntry)
    (fwds : List ForwardEntry) (hval : ∀ x ∈ e :: tl, ValidOpt x.option) :
    Portfolio.total_premium_amount (Portfolio.mk pv (e :: tl) fwds) =
      Except.ok (0 + ((e :: tl).map (fun x =>
        entryPremium x * x.quantity * x.contract_size)).sum) ∧
    Portfolio.delta (Portfolio.mk pv (e :: tl) fwds) = Except.error PyErr.zeroDivisionError ∧
    Portfolio.gamma (Portfolio.mk pv (e :: tl) fwds) = Except.error PyErr.zeroDivisionError ∧
    Portfolio.vega (Portfolio.mk pv (e :: tl) fwds) = Except.error PyErr.zeroDivisionError ∧
    Portfolio.theta (Portfolio.mk pv (e :: tl) fwds) = Except.error PyErr.zeroDivisionError := by
  subst hpv
  have hhead : ValidOpt e.option := hval e (List.mem_cons_self _ _)
  refine ⟨?_, ?_, ?_, ?_, ?_⟩
  · unfold Portfolio.total_premium_amount
    exact premiumLoop_ok (e :: tl) hval 0
  · unfold Portfolio.delta
    simp only [Bind.bind]
    rw [deltaOptLoop_pv_zero e tl 0 hhead]
    rfl
  · unfold Portfolio.gamma
    exact gammaLoop_pv_zero e tl 0 hhead
  · unfold Portfolio.vega
    exact vegaLoop_pv_zero e tl 0 hhead
  · unfold Portfolio.theta
    exact thetaLoop_pv_zero e tl 0 hhead

/-- Witness for `C4_amended` on a one-option book. -/
theorem C4_amended_witness :
    Portfolio.total_premium_amount (Portfolio.mk 0
        [OptionEntry.mk (OptionInst.mk putType 2 1 0 0 365 1) 1 1] []) =
      Except.ok (0 + ([OptionEntry.mk (OptionInst.mk putType 2 1 0 0 365 1) 1 1].map (fun x =>
        entryPremium x * x.quantity * x.contract_size)).sum) ∧
    Portfolio.delta (Portfolio.mk 0
        [OptionEntry.mk (OptionInst.mk putType 2 1 0 0 365 1) 1 1] []) =
      Except.error PyErr.zeroDivisionError ∧
    Portfolio.gamma (Portfolio.mk 0
        [OptionEntry.mk (OptionInst.mk putType 2 1 0 0 365 1) 1 1] []) =
      Except.error PyErr.zeroDivisionError ∧
    Portfolio.vega (Portfolio.mk 0
        [OptionEntry.mk (OptionInst.mk putType 2 1 0 0 365 1) 1 1] []) =
      Except.error PyErr.zeroDivisionError ∧
    Portfolio.theta (Portfolio.mk 0
        [OptionEntry.mk (OptionInst.mk putType 2 1 0 0 365 1) 1 1] []) =
      Except.error PyErr.zeroDivisionError :=
  C4_amended 0 rfl (OptionEntry.mk (OptionInst.mk putType 2 1 0 0 365 1) 1 1) [] []
    (by
      intro x hx
      simp only [List.mem_singleton] at hx
      subst hx
      exact ⟨Or.inr rfl, by norm_num, by norm_num, by norm_num, by norm_num⟩)

/-- C5 counterexample: a pricing call on a valid instrument with the
override `implied_volatility = -1` (so `σ ≤ 0`) does not fail at all — it
returns a value — refuting the claim that any override with `σ ≤ 0` fails
with a dedicated invalid-pricing-input error. -/
theorem C5_counterexample :
    OptionInst.black_scholes (OptionInst.mk callType 1 1 0 0 365 1)
        Option.none Option.none (Option.some (-1)) =
      Except.ok (price_val callType 1 1 (((365 : ℤ) : ℝ) / 365) 0 0 (-1)) :=
  black_scholes_ok _ _ _ _ (by show (0 : ℝ) < 1; norm_num)
    (by show (0 : ℝ) < 1; norm_num)
    (by
      show (0 : ℝ) < ((365 : ℤ) : ℝ) / 365
      norm_num)
    (by
      show (-1 : ℝ) ≠ 0
      norm_num)

/-- C5 (amended): the code has no `InvalidPricingInputError` guard.  On a
valid instrument, an override `time_to_maturity = 0` makes every pricing
call fail with `ZeroDivisionError` (division by `σ·√T = 0`); a negative
`time_to_maturity` override makes every call fail with `ValueError`
(`math.sqrt` domain error); an override `implied_volatility = 0` makes
every call fail with `ZeroDivisionError`; a strictly negative `σ` override
does not fail at all (see the counterexample).  The stored instrument is
unchanged by any of these calls (the methods never assign an attribute). -/
theorem C5_amended (o : OptionInst) (d : ℤ) (hd : d < 0) (h : ValidOpt o) :
    (o.black_scholes Option.none (Option.some 0) Option.none = Except.error PyErr.zeroDivisionError ∧
     o.delta Option.none (Option.some 0) Option.none = Except.error PyErr.zeroDivisionError ∧
     o.vega Option.none (Option.some 0) Option.none = Except.error PyErr.zeroDivisionError ∧
     o.gamma Option.none (Option.some 0) Option.none = Except.error PyErr.zeroDivisionError ∧
     o.theta Option.none (Option.some 0) Option.none = Except.error PyErr.zeroDivisionError) ∧
    (o.black_scholes Option.none (Option.some d) Option.none = Except.error PyErr.valueError ∧
     o.delta Option.none (Option.some d) Option.none = Except.error PyErr.valueError ∧
     o.vega Option.none (Option.some d) Option.none = Except.error PyErr.valueError ∧
     o.gamma Option.none (Option.some d) Option.none = Except.error PyErr.valueError ∧
     o.theta Option.none (Option.some d) Option.none = Except.error PyErr.valueError) ∧
    (o.black_scholes Option.none Option.none (Option.some 0) = Except.error PyErr.zeroDivisionError ∧
     o.delta Option.none Option.none (Option.some 0) = Except.error PyErr.zeroDivisionError ∧
     o.vega Option.none Option.none (Option.some 0) = Except.error PyErr.zeroDivisionError ∧
     o.gamma Option.none Option.none (Option.some 0) = Except.error PyErr.zeroDivisionError ∧
     o.theta Option.none Option.none (Option.some 0) = Except.error PyErr.zeroDivisionError) := by
  obtain ⟨-, hS, hK, hdm, hsig⟩ := h
  have h0 : calculate_d1_d2 (mergedS o Option.none) o.strike_price
      (mergedT o (Option.some 0)) o.interest_rate o.dividend_yield
      (mergedSigma o Option.none) = Except.error PyErr.zeroDivisionError := by
    have hT0 : mergedT o (Option.some 0) = 0 := by
      show ((0 : ℤ) : ℝ) / 365 = 0
      norm_num
    rw [hT0]
    exact calculate_d1_d2_T_zero _ _ _ hS hK
  have hneg : calculate_d1_d2 (mergedS o Option.none) o.strike_price
      (mergedT o (Option.some d)) o.interest_rate o.dividend_yield
      (mergedSigma o Option.none) = Except.error PyErr.valueError := by
    have hTneg : mergedT o (Option.some d) < 0 := by
      show (d : ℝ) / 365 < 0
      exact div_neg_of_neg_of_pos (by exact_mod_cast hd) (by norm_num)
    exact calculate_d1_d2_T_neg _ _ _ hS hK hTneg
  have hs0 : calculate_d1_d2 (mergedS o Option.none) o.strike_price
      (mergedT o Option.none) o.interest_rate o.dividend_yield
      (mergedSigma o (Option.some 0)) = Except.error PyErr.zeroDivisionError :=
    calculate_d1_d2_sigma_zero _ _ hS hK (yearsOf_pos hdm).le
  exact ⟨⟨black_scholes_err _ _ _ _ _ h0, delta_err _ _ _ _ _ h0, vega_err _ _ _ _ _ h0,
      gamma_err _ _ _ _ _ h0, theta_err _ _ _ _ _ h0⟩,
    ⟨black_scholes_err _ _ _ _ _ hneg, delta_err _ _ _ _ _ hneg, vega_err _ _ _ _ _ hneg,
      gamma_err _ _ _ _ _ hneg, theta_err _ _ _ _ _ hneg⟩,
    ⟨black_scholes_err _ _ _ _ _ hs0, delta_err _ _ _ _ _ hs0, vega_err _ _ _ _ _ hs0,
      gamma_err _ _ _ _ _ hs0, theta_err _ _ _ _ _ hs0⟩⟩

/-- Witness for `C5_amended` on a concrete valid Call with a `-1`-day
override. -/
theorem C5_amended_witness :
    (OptionInst.black_scholes (OptionInst.mk callType 1 1 0 0 365 1) Option.none (Option.some 0) Option.none = Except.error PyErr.zeroDivisionError ∧
     OptionInst.delta (OptionInst.mk callType 1 1 0 0 365 1) Option.none (Option.some 0) Option.none = Except.error PyErr.zeroDivisionError ∧
     OptionInst.vega (OptionInst.mk callType 1 1 0 0 365 1) Option.none (Option.some 0) Option.none = Except.error PyErr.zeroDivisionError ∧
     OptionInst.gamma (OptionInst.mk callType 1 1 0 0 365 1) Option.none (Option.some 0) Option.none = Except.error PyErr.zeroDivisionError ∧
     OptionInst.theta (OptionInst.mk callType 1 1 0 0 365 1) Option.none (Option.some 0) Option.none = Except.error PyErr.zeroDivisionError) ∧
    (OptionInst.black_scholes (OptionInst.mk callType 1 1 0 0 365 1) Option.none (Option.some (-1)) Option.none = Except.error PyErr.valueError ∧
     OptionInst.delta (OptionInst.mk callType 1 1 0 0 365 1) Option.none (Option.some (-1)) Option.none = Except.error PyErr.valueError ∧
     OptionInst.vega (OptionInst.mk callType 1 1 0 0 365 1) Option.none (Option.some (-1)) Option.none = Except.error PyErr.valueError ∧
     OptionInst.gamma (OptionInst.mk callType 1 1 0 0 365 1) Option.none (Option.some (-1)) Option.none = Except.error PyErr.valueError ∧
     OptionInst.theta (OptionInst.mk callType 1 1 0 0 365 1) Option.none (Option.some (-1)) Option.none = Except.error PyErr.valueError) ∧
    (OptionInst.black_scholes (OptionInst.mk callType 1 1 0 0 365 1) Option.none Option.none (Option.some 0) = Except.error PyErr.zeroDivisionError ∧
     OptionInst.delta (OptionInst.mk callType 1 1 0 0 365 1) Option.none Option.none (Option.some 0) = Except.error PyErr.zeroDivisionError ∧
     OptionInst.vega (OptionInst.mk callType 1 1 0 0 365 1) Option.none Option.none (Option.some 0) = Except.error PyErr.zeroDivisionError ∧
     OptionInst.gamma (OptionInst.mk callType 1 1 0 0 365 1) Option.none Option.none (Option.some 0) = Except.error PyErr.zeroDivisionError ∧
     OptionInst.theta (OptionInst.mk callType 1 1 0 0 365 1) Option.none Option.none (Option.some 0) = Except.error PyErr.zeroDivisionError) :=
  C5_amended (OptionInst.mk callType 1 1 0 0 365 1) (-1) (by norm_num)
    ⟨Or.inl rfl, by norm_num, by norm_num, by norm_num, by norm_num⟩

lemma length_dropna_pct_change_aux (l : List (Date × ℝ)) :
    ∀ prev : ℝ, (dropna (pct_change_aux prev l)).length = l.length := by
  induction l with
  | nil => intro prev; rfl
  | cons x xs ih =>
    intro prev
    simp only [pct_change_aux, dropna, List.filterMap_cons, Option.map_some]
    simpa [dropna] using ih x.2

lemma length_dropna_pct_change (l : List (Date × ℝ)) :
    (dropna (pct_change l)).length = l.length - 1 := by
  cases l with
  | nil => rfl
  | cons x xs =>
    simp only [pct_change, dropna, List.filterMap_cons, Option.map_none]
    simpa [dropna] using length_dropna_pct_change_aux xs x.2

lemma rollingStdFrom_none (w : ℕ) (full : List (Date × ℝ)) (xs : List (Date × ℝ)) :
    ∀ i : ℕ, i + xs.length < w → ∀ p ∈ rollingStdFrom w full i xs, p.2 = Option.none := by
  induction xs with
  | nil => intro i _ p hp; simp [rollingStdFrom] at hp
  | cons x tl ih =>
    intro i hlt p hp
    simp only [List.length_cons] at hlt
    simp only [rollingStdFrom, List.mem_cons] at hp
    rcases hp with hp | hp
    · subst hp
      show (if i + 1 < w then Option.none else _) = Option.none
      rw [if_pos (by omega)]
    · exact ih (i + 1) (by omega) p hp

lemma lastNonNone_of_all_none (l : List (Option ℝ)) (h : ∀ x ∈ l, x = Option.none) :
    lastNonNone l = Option.none := by
  have key : ∀ (l : List (Option ℝ)), (∀ x ∈ l, x = Option.none) → ∀ acc : Option ℝ,
      List.foldl (fun acc v =>
        match v with | Option.none => acc | Option.some r => Option.some r) acc l = acc := by
    intro l
    induction l with
    | nil => intro _ acc; rfl
    | cons x tl ih =>
      intro hh acc
      have hx : x = Option.none := hh x (List.mem_cons_self _ _)
      subst hx
      simp only [List.foldl_cons]
      exact ih (fun y hy => hh y (List.mem_cons_of_mem _ hy)) acc
  exact key l h Option.none

lemma resampleMonthLast_all_none (l : List (Date × Option ℝ))
    (h : ∀ p ∈ l, p.2 = Option.none) :
    ∀ q ∈ resampleMonthLast l, q.2 = Option.none := by
  intro q hq
  unfold resampleMonthLast at hq
  split at hq
  · rcases List.mem_map.mp hq with ⟨m, hm, rfl⟩
    show lastNonNone _ = Option.none
    apply lastNonNone_of_all_none
    intro x hx
    rcases List.mem_map.mp hx with ⟨p, hp, rfl⟩
    exact h p (List.mem_filter.mp hp).1
  · simp at hq

/-- C9 (amended): on a price series with fewer than 30 samples, every
rolling-volatility position carries the insufficient-data marker, and every
entry of the monthly output carries the insufficient-data marker as well —
but the monthly output is NOT the empty sequence as soon as the series
spans at least one return (`resample('M').last()` emits one NaN row per
month spanned; see the counterexample). -/
theorem C9_short_series (prices : List (Date × ℝ)) (h : prices.length < 30) :
    ((rollingVolOf prices).all fun p => p.2.isNone) = true ∧
    ((compute_monthly_30d_volatility prices).all fun p => p.2.isNone) = true := by
  have hlen : (dailyReturnsOf prices).length < 30 := by
    unfold dailyReturnsOf
    rw [length_dropna_pct_change]
    unfold sortPrices
    rw [List.length_insertionSort]
    omega
  have hroll : ∀ p ∈ rollingStd 30 (dailyReturnsOf prices), p.2 = Option.none := by
    intro p hp
    exact rollingStdFrom_none 30 _ _ 0 (by simpa using hlen) p hp
  have hrollvol : ∀ p ∈ rollingVolOf prices, p.2 = Option.none := by
    intro p hp
    unfold rollingVolOf at hp
    rcases List.mem_map.mp hp with ⟨x, hx, rfl⟩
    show (x.2.map _) = Option.none
    rw [hroll x hx]
    rfl
  constructor
  · rw [List.all_eq_true]
    intro p hp
    show p.2.isNone = true
    rw [hrollvol p hp]
    rfl
  · rw [List.all_eq_true]
    intro q hq
    show q.2.isNone = true
    rw [resampleMonthLast_all_none _ hrollvol q hq]
    rfl

/-- Witness for `C9_short_series` on a two-sample series. -/
theorem C9_short_series_witness :
    ([(Date.mk 0 1, (1 : ℝ)), (Date.mk 0 2, 2)] : List (Date × ℝ)).length < 30 ∧
    (((rollingVolOf [(Date.mk 0 1, (1 : ℝ)), (Date.mk 0 2, 2)]).all fun p => p.2.isNone) = true ∧
     ((compute_monthly_30d_volatility [(Date.mk 0 1, (1 : ℝ)), (Date.mk 0 2, 2)]).all fun p => p.2.isNone) = true) :=
  ⟨by norm_num, C9_short_series [(Date.mk 0 1, (1 : ℝ)), (Date.mk 0 2, 2)] (by norm_num)⟩

/-- C9 counterexample: a two-sample series (fewer than 30 samples) whose
monthly output sequence is NOT empty — it holds one NaN row for the one
month spanned — refuting the claim that the monthly output is empty for
every series shorter than the window. -/
theorem C9_counterexample :
    ([(Date.mk 0 1, (1 : ℝ)), (Date.mk 0 2, 2)] : List (Date × ℝ)).length < 30 ∧
    compute_monthly_30d_volatility [(Date.mk 0 1, (1 : ℝ)), (Date.mk 0 2, 2)] ≠ [] := by
  constructor
  · norm_num
  · have h : compute_monthly_30d_volatility [(Date.mk 0 1, (1 : ℝ)), (Date.mk 0 2, 2)] =
        [(0, Option.none)] := rfl
    rw [h]
    exact List.cons_ne_nil _ _
